/-
Verification of the drone performance calculator physics engine
(`src/utils/physics.js`) against its natural-language specification.

The engine is a collection of pure numeric functions over JavaScript
numbers, composed by a single aggregator `runFullSimulation`.  We embed
it shallowly over the real numbers: `Math.sqrt` becomes `Real.sqrt`,
`Math.exp` becomes `Real.exp`, `Math.pow` with a real exponent becomes
`Real.rpow`, and the JavaScript value `Infinity` (returned by
`calcFlightTime` for non-positive current) becomes the top element of
`WithTop ℝ`.  Configuration fields are `Option ℝ` (a missing field is
`none`); the JavaScript defaulting idiom `x || d`, which treats the
number 0 as absent, is embedded by `orD`, and the nullish idiom `x ?? d`
(used only for the ambient temperature) by `Option.getD`.
-/
import Mathlib

namespace DroneCalc

noncomputable section

/-! ### Constants (physics.js lines 8–15) -/

def SEA_LEVEL_PRESSURE : ℝ := 101325
def SEA_LEVEL_TEMP : ℝ := 288.15
def LAPSE_RATE : ℝ := 0.0065
def AIR_GAS_CONSTANT : ℝ := 287.058
def GRAVITY : ℝ := 9.80665
def MOLAR_MASS_AIR : ℝ := 0.0289644
def UNIVERSAL_GAS_CONSTANT : ℝ := 8.31447

/-- AWG wire resistance per meter (Ω/m); unknown gauges fall back to AWG 14,
mirroring the lookup `AWG_RESISTANCE[awg] || AWG_RESISTANCE[14]`. -/
def AWG_RESISTANCE (awg : ℝ) : ℝ :=
  if awg = 10 then 0.003277
  else if awg = 12 then 0.005211
  else if awg = 14 then 0.008286
  else if awg = 16 then 0.01317
  else if awg = 18 then 0.02095
  else if awg = 20 then 0.03331
  else if awg = 22 then 0.05296
  else if awg = 26 then 0.0668
  else 0.008286

/-- Per-cell voltage data of a battery chemistry. -/
structure ChemSpec where
  nominal : ℝ
  max : ℝ
  min : ℝ
  deriving DecidableEq

/-- Battery chemistry voltage table; unknown names fall back to LiPo,
mirroring `CHEMISTRY[chemistry] || CHEMISTRY.LiPo`. -/
def CHEMISTRY (name : String) : ChemSpec :=
  if name = "LiPo" then ⟨3.7, 4.2, 3.3⟩
  else if name = "Li-ion" then ⟨3.6, 4.2, 2.8⟩
  else if name = "LiHV" then ⟨3.85, 4.35, 3.3⟩
  else ⟨3.7, 4.2, 3.3⟩

/-! ### Physics primitives (physics.js lines 42–264) -/

/-- Air density from the ISA barometric formula; pressure uses the clamped
altitude, density uses the user-supplied temperature (the variable `T`
computed and then cancelled in the source is kept, unused, for fidelity). -/
def calcAirDensity (altitudeM tempC : ℝ) : ℝ :=
  let alt := max 0 (min altitudeM 11000)
  let T := (tempC + 273.15) - LAPSE_RATE * alt + LAPSE_RATE * alt
  let exponent := (GRAVITY * MOLAR_MASS_AIR) / (UNIVERSAL_GAS_CONSTANT * LAPSE_RATE)
  let P := SEA_LEVEL_PRESSURE * (1 - (LAPSE_RATE * alt) / SEA_LEVEL_TEMP) ^ exponent
  let T_kelvin := tempC + 273.15
  P / (AIR_GAS_CONSTANT * T_kelvin)

def calcMotorRPM (kv voltage current resistance : ℝ) : ℝ :=
  let backEMF := voltage - current * resistance
  kv * max 0 backEMF

def calcThrust (ct rho rps diameterM : ℝ) : ℝ :=
  ct * rho * rps * rps * diameterM ^ (4 : ℕ)

def calcPropPower (cp rho rps diameterM : ℝ) : ℝ :=
  cp * rho * rps ^ (3 : ℕ) * diameterM ^ (5 : ℕ)

def calcMotorElecPower (voltage current : ℝ) : ℝ := voltage * current

def calcMotorEfficiency (mechPower elecPower : ℝ) : ℝ :=
  if elecPower ≤ 0 then 0 else min 1 (max 0 (mechPower / elecPower))

structure PropCoeffs where
  ct : ℝ
  cp : ℝ

/-- Empirical propeller coefficients from geometry; the three-blade
multipliers are applied before the final clamping, as in the source. -/
def estimatePropCoefficients (diameterIn pitchIn blades : ℝ) : PropCoeffs :=
  let pitchRatio := pitchIn / diameterIn
  let ct0 := 0.075 + 0.045 * pitchRatio
  let cp0 := 0.025 + 0.035 * pitchRatio
  let ct1 := if blades = 3 then ct0 * 1.15 else ct0
  let cp1 := if blades = 3 then cp0 * 1.25 else cp0
  ⟨max 0.04 (min 0.22 ct1), max 0.015 (min 0.12 cp1)⟩

structure BatteryLoad where
  voltage : ℝ
  sagVolts : ℝ

def calcBatteryVoltageUnderLoad (cells : ℝ) (chemistry : String)
    (currentA capacityMah cRating internalResistanceMohm : ℝ) : BatteryLoad :=
  let chem := CHEMISTRY chemistry
  let nominalVoltage := chem.nominal * cells
  let minVoltage := chem.min * cells
  let totalResistance := (internalResistanceMohm / 1000) * cells
  let sagVolts := currentA * totalResistance
  let voltage := max minVoltage (nominalVoltage - sagVolts)
  ⟨voltage, sagVolts⟩

def calcHoverThrottle (totalWeightKg numMotors maxThrustPerMotorN coaxialFactor : ℝ) : ℝ :=
  let requiredThrust := totalWeightKg * GRAVITY
  let effectiveMotors := numMotors * coaxialFactor
  let thrustPerMotor := requiredThrust / effectiveMotors
  if maxThrustPerMotorN ≤ 0 then 100
  else min 100 (max 0 (Real.sqrt (thrustPerMotor / maxThrustPerMotorN) * 100))

def calcFlightTime (capacityMah dischargePercent totalCurrentA : ℝ) : WithTop ℝ :=
  if totalCurrentA ≤ 0 then ⊤
  else (((capacityMah * dischargePercent) / (totalCurrentA * 1000) * 60 : ℝ) : WithTop ℝ)

def calcMotorTemp (ambientC copperLossW thermalResistanceCW durationS : ℝ) : ℝ :=
  let tau := (120 : ℝ)
  let steadyState := copperLossW * thermalResistanceCW
  ambientC + steadyState * (1 - Real.exp (-durationS / tau))

def calcThrustToWeightRatio (totalThrustN totalWeightKg : ℝ) : ℝ :=
  if totalWeightKg ≤ 0 then 0 else totalThrustN / (totalWeightKg * GRAVITY)

def calcSystemEfficiency (thrustN powerW : ℝ) : ℝ :=
  if powerW ≤ 0 then 0 else (thrustN * 1000 / GRAVITY) / powerW

structure WireLossResult where
  resistance : ℝ
  powerLoss : ℝ

def calcWireLoss (awg lengthCm currentA : ℝ) : WireLossResult :=
  let resistancePerM := AWG_RESISTANCE awg
  let resistance := resistancePerM * (lengthCm / 100)
  let powerLoss := currentA * currentA * resistance
  ⟨resistance, powerLoss⟩

def calcCoaxialFactor (isCoaxial : Bool) : ℝ := if isCoaxial then 0.85 else 1.0

/-! ### Configuration records

Each field is optional; `none` models a missing (undefined) field. -/

structure EnvironmentCfg where
  altitude : Option ℝ := none
  temperature : Option ℝ := none

structure FrameCfg where
  motorCount : Option ℝ := none
  layout : Option String := none
  frameWeight : Option ℝ := none
  payloadWeight : Option ℝ := none
  payloadCurrent : Option ℝ := none
  wheelbaseMm : Option ℝ := none

structure BatteryCfg where
  chemistry : Option String := none
  cellsS : Option ℝ := none
  cellsP : Option ℝ := none
  capacityMah : Option ℝ := none
  cRating : Option ℝ := none
  burstC : Option ℝ := none
  internalResistanceMohm : Option ℝ := none
  weightG : Option ℝ := none
  dischargeDepth : Option ℝ := none

structure MotorCfg where
  kv : Option ℝ := none
  resistance : Option ℝ := none
  noLoadCurrent : Option ℝ := none
  maxCurrent : Option ℝ := none
  maxPower : Option ℝ := none
  weightG : Option ℝ := none
  thermalResistance : Option ℝ := none
  minCells : Option ℝ := none
  maxCells : Option ℝ := none

structure EscCfg where
  continuousA : Option ℝ := none
  resistanceMohm : Option ℝ := none
  weightG : Option ℝ := none
  wireAwg : Option ℝ := none
  wireLengthCm : Option ℝ := none
  minCells : Option ℝ := none
  maxCells : Option ℝ := none

structure PropellerCfg where
  diameterIn : Option ℝ := none
  pitchIn : Option ℝ := none
  blades : Option ℝ := none
  weightG : Option ℝ := none
  ct : Option ℝ := none
  cp : Option ℝ := none

structure Config where
  environment : EnvironmentCfg := {}
  frame : FrameCfg := {}
  battery : BatteryCfg := {}
  esc : EscCfg := {}
  motor : MotorCfg := {}
  propeller : PropellerCfg := {}

/-- JavaScript numeric defaulting `v || d`: a missing field or an explicit 0
both yield the default (0 is falsy). -/
def orD (v : Option ℝ) (d : ℝ) : ℝ :=
  match v with
  | none => d
  | some x => if x = 0 then d else x

/-- JavaScript string defaulting `v || d`: a missing field or the empty
string both yield the default. -/
def orS (v : Option String) (d : String) : String :=
  match v with
  | none => d
  | some s => if s = "" then d else s

/-! ### Resolved configuration quantities (physics.js lines 281–343)

Each `const x = …` of the aggregator's resolution block becomes a
definition of the same name over the raw configuration. -/

def altitude (c : Config) : ℝ := orD c.environment.altitude 0

/-- Temperature uses the nullish idiom `environment.temperature ?? 25`,
so an explicit 0 °C is respected. -/
def tempC (c : Config) : ℝ := c.environment.temperature.getD 25

def rho (c : Config) : ℝ := calcAirDensity (altitude c) (tempC c)

def numMotors (c : Config) : ℝ := orD c.frame.motorCount 4

def isCoaxial (c : Config) : Bool := c.frame.layout = some "coaxial"

def coaxFactor (c : Config) : ℝ := calcCoaxialFactor (isCoaxial c)

def frameWeight (c : Config) : ℝ := orD c.frame.frameWeight 0 / 1000

def payloadWeight (c : Config) : ℝ := orD c.frame.payloadWeight 0 / 1000

def payloadCurrent (c : Config) : ℝ := orD c.frame.payloadCurrent 0

def chem (c : Config) : String := orS c.battery.chemistry "LiPo"

def cells (c : Config) : ℝ := orD c.battery.cellsS 4

def parallel (c : Config) : ℝ := orD c.battery.cellsP 1

def capacityMah (c : Config) : ℝ := orD c.battery.capacityMah 5000 * parallel c

def cRating (c : Config) : ℝ := orD c.battery.cRating 20

def burstC (c : Config) : ℝ := orD c.battery.burstC 40

def internalR (c : Config) : ℝ := orD c.battery.internalResistanceMohm 5

def batteryWeight (c : Config) : ℝ := orD c.battery.weightG 0 / 1000

def dischargeDepth (c : Config) : ℝ := orD c.battery.dischargeDepth 80 / 100

def chemData (c : Config) : ChemSpec := CHEMISTRY (chem c)

def nominalVoltage (c : Config) : ℝ := (chemData c).nominal * cells c

def maxVoltage (c : Config) : ℝ := (chemData c).max * cells c

def maxContinuousCurrent (c : Config) : ℝ := capacityMah c / 1000 * cRating c

def kv (c : Config) : ℝ := orD c.motor.kv 920

def motorResistance (c : Config) : ℝ := orD c.motor.resistance 0.1

def noLoadCurrent (c : Config) : ℝ := orD c.motor.noLoadCurrent 0.5

def maxMotorCurrent (c : Config) : ℝ := orD c.motor.maxCurrent 30

def maxMotorPower (c : Config) : ℝ := orD c.motor.maxPower 400

def motorWeightG (c : Config) : ℝ := orD c.motor.weightG 60

def thermalResistance (c : Config) : ℝ := orD c.motor.thermalResistance 10

def motorMinCells (c : Config) : ℝ := orD c.motor.minCells 2

def motorMaxCells (c : Config) : ℝ := orD c.motor.maxCells 6

def escMaxCurrent (c : Config) : ℝ := orD c.esc.continuousA 30

def escResistance (c : Config) : ℝ := orD c.esc.resistanceMohm 1 / 1000

def escWeightG (c : Config) : ℝ := orD c.esc.weightG 10

def wireAWG (c : Config) : ℝ := orD c.esc.wireAwg 14

def wireLengthCm (c : Config) : ℝ := orD c.esc.wireLengthCm 20

def escMinCells (c : Config) : ℝ := orD c.esc.minCells 2

def escMaxCells (c : Config) : ℝ := orD c.esc.maxCells 6

def propDiameterIn (c : Config) : ℝ := orD c.propeller.diameterIn 10

def propPitchIn (c : Config) : ℝ := orD c.propeller.pitchIn 4.5

def propBlades (c : Config) : ℝ := orD c.propeller.blades 2

def propWeightG (c : Config) : ℝ := orD c.propeller.weightG 15

/-- Resolved thrust coefficient.  The source sets `ct = ct || coeffs.ct`
inside `if (!ct || !cp)`; since a truthy supplied `ct` is kept in both
branches, this is exactly the truthiness default against the estimate. -/
def ct (c : Config) : ℝ :=
  orD c.propeller.ct
    (estimatePropCoefficients (propDiameterIn c) (propPitchIn c) (propBlades c)).ct

/-- Resolved power coefficient; see `ct`. -/
def cp (c : Config) : ℝ :=
  orD c.propeller.cp
    (estimatePropCoefficients (propDiameterIn c) (propPitchIn c) (propBlades c)).cp

def propDiameterM (c : Config) : ℝ := propDiameterIn c * 0.0254

/-! ### Derived simulation quantities (physics.js lines 345–440) -/

def totalWeightKg (c : Config) : ℝ :=
  frameWeight c + payloadWeight c + batteryWeight c +
    (motorWeightG c * numMotors c + escWeightG c * numMotors c +
      propWeightG c * numMotors c) / 1000

def totalWeightG (c : Config) : ℝ := totalWeightKg c * 1000

def maxRPM (c : Config) : ℝ :=
  calcMotorRPM (kv c) (maxVoltage c) (noLoadCurrent c) (motorResistance c)

def maxRPS (c : Config) : ℝ := maxRPM c / 60

def maxThrustPerMotor (c : Config) : ℝ :=
  calcThrust (ct c) (rho c) (maxRPS c) (propDiameterM c)

def maxTotalThrust (c : Config) : ℝ := maxThrustPerMotor c * numMotors c * coaxFactor c

def maxTotalThrustG (c : Config) : ℝ := maxTotalThrust c / GRAVITY * 1000

def hoverThrottle (c : Config) : ℝ :=
  calcHoverThrottle (totalWeightKg c) (numMotors c) (maxThrustPerMotor c) (coaxFactor c)

def hoverRPS (c : Config) : ℝ := maxRPS c * (hoverThrottle c / 100)

def hoverRPM (c : Config) : ℝ := hoverRPS c * 60

def hoverThrustPerMotor (c : Config) : ℝ :=
  calcThrust (ct c) (rho c) (hoverRPS c) (propDiameterM c)

def hoverMechPower (c : Config) : ℝ :=
  calcPropPower (cp c) (rho c) (hoverRPS c) (propDiameterM c)

/-- Fixed assumed BLDC motor efficiency used by the current back-calculation. -/
def motorEff : ℝ := 0.85

def hoverCurrentPerMotor (c : Config) : ℝ :=
  hoverMechPower c / (nominalVoltage c * motorEff) + noLoadCurrent c

def hoverTotalCurrent (c : Config) : ℝ :=
  hoverCurrentPerMotor c * numMotors c + payloadCurrent c

def hoverBattery (c : Config) : BatteryLoad :=
  calcBatteryVoltageUnderLoad (cells c) (chem c) (hoverTotalCurrent c)
    (capacityMah c) (cRating c) (internalR c)

def hoverElecPowerPerMotor (c : Config) : ℝ :=
  calcMotorElecPower ((hoverBattery c).voltage / cells c * cells c) (hoverCurrentPerMotor c)

def hoverTotalPower (c : Config) : ℝ :=
  hoverElecPowerPerMotor c * numMotors c + payloadCurrent c * (hoverBattery c).voltage

def hoverEfficiency (c : Config) : ℝ :=
  calcSystemEfficiency (hoverThrustPerMotor c * numMotors c * coaxFactor c) (hoverTotalPower c)

def flightTime (c : Config) : WithTop ℝ :=
  calcFlightTime (capacityMah c) (dischargeDepth c) (hoverTotalCurrent c)

def maxMechPower (c : Config) : ℝ :=
  calcPropPower (cp c) (rho c) (maxRPS c) (propDiameterM c)

def maxCurrentPerMotor (c : Config) : ℝ :=
  maxMechPower c / (nominalVoltage c * motorEff) + noLoadCurrent c

def maxTotalCurrentDraw (c : Config) : ℝ :=
  maxCurrentPerMotor c * numMotors c + payloadCurrent c

def maxBattery (c : Config) : BatteryLoad :=
  calcBatteryVoltageUnderLoad (cells c) (chem c) (maxTotalCurrentDraw c)
    (capacityMah c) (cRating c) (internalR c)

def wireLoss (c : Config) : WireLossResult :=
  calcWireLoss (wireAWG c) (wireLengthCm c) (hoverCurrentPerMotor c)

def totalWireLoss (c : Config) : ℝ := (wireLoss c).powerLoss * numMotors c

def escPowerLoss (c : Config) : ℝ :=
  hoverCurrentPerMotor c * hoverCurrentPerMotor c * escResistance c * numMotors c

def copperLoss (c : Config) : ℝ :=
  hoverCurrentPerMotor c * hoverCurrentPerMotor c * motorResistance c

def motorTemp5min (c : Config) : ℝ :=
  calcMotorTemp (tempC c) (copperLoss c) (thermalResistance c) 300

def twr (c : Config) : ℝ := calcThrustToWeightRatio (maxTotalThrust c) (totalWeightKg c)

def motorEffCalc (c : Config) : ℝ :=
  calcMotorEfficiency (hoverMechPower c) (hoverElecPowerPerMotor c)

def maxBurstCurrent (c : Config) : ℝ := capacityMah c / 1000 * burstC c

def wheelbaseMm (c : Config) : ℝ := orD c.frame.wheelbaseMm 350

/-- Wheelbase geometry factor lookup `{3: 0.866, 4: 0.707, 6: 0.5, 8: 0.38}`
with fallback 0.5 for any other motor count. -/
def wbFactor (c : Config) : ℝ :=
  if numMotors c = 3 then 0.866
  else if numMotors c = 4 then 0.707
  else if numMotors c = 6 then 0.5
  else if numMotors c = 8 then 0.38
  else 0.5

def maxPropDiameterMm (c : Config) : ℝ := wheelbaseMm c * wbFactor c

def propDiameterMm (c : Config) : ℝ := propDiameterIn c * 25.4

/-! ### Validations (physics.js lines 427–440) -/

structure Validations where
  motorCurrentOk : Prop
  escCurrentOk : Prop
  batteryDischargeOk : Prop
  batteryBurstOk : Prop
  propSizeOk : Prop
  twrOk : Prop
  motorTempOk : Prop
  hoverThrottleOk : Prop
  escVoltageOk : Prop
  motorVoltageOk : Prop

/-- The field values in insertion order, as `Object.values` enumerates them. -/
def Validations.values (v : Validations) : List Prop :=
  [v.motorCurrentOk, v.escCurrentOk, v.batteryDischargeOk, v.batteryBurstOk,
   v.propSizeOk, v.twrOk, v.motorTempOk, v.hoverThrottleOk, v.escVoltageOk,
   v.motorVoltageOk]

def validations (c : Config) : Validations where
  motorCurrentOk := hoverCurrentPerMotor c < maxMotorCurrent c
  escCurrentOk := hoverCurrentPerMotor c < escMaxCurrent c
  batteryDischargeOk := hoverTotalCurrent c < maxContinuousCurrent c
  batteryBurstOk := maxTotalCurrentDraw c < maxBurstCurrent c
  propSizeOk := propDiameterMm c ≤ maxPropDiameterMm c
  twrOk := twr c ≥ 2.0
  motorTempOk := motorTemp5min c < 80
  hoverThrottleOk := hoverThrottle c < 60
  escVoltageOk := cells c ≥ escMinCells c ∧ cells c ≤ escMaxCells c
  motorVoltageOk := cells c ≥ motorMinCells c ∧ cells c ≤ motorMaxCells c

/-- `Object.values(validations).every(Boolean)`. -/
def allValid (c : Config) : Prop := ∀ p ∈ (validations c).values, p

/-! ### The full simulation result (physics.js lines 442–507) -/

structure SimulationResult where
  airDensity : ℝ
  totalWeightKg : ℝ
  totalWeightG : ℝ
  hoverThrottle : ℝ
  hoverRPM : ℝ
  hoverCurrentPerMotor : ℝ
  hoverTotalCurrent : ℝ
  hoverTotalPower : ℝ
  hoverEfficiency : ℝ
  hoverThrustPerMotor : ℝ
  hoverBatteryVoltage : ℝ
  hoverBatterySag : ℝ
  flightTimeMin : WithTop ℝ
  maxThrustPerMotorG : ℝ
  maxTotalThrustG : ℝ
  maxRPM : ℝ
  maxCurrentPerMotor : ℝ
  maxTotalCurrentDraw : ℝ
  maxBatteryVoltage : ℝ
  maxBatterySag : ℝ
  twr : ℝ
  wireLossPerMotor : ℝ
  totalWireLoss : ℝ
  escPowerLoss : ℝ
  copperLossPerMotor : ℝ
  motorTemp5min : ℝ
  motorEfficiency : ℝ
  nominalVoltage : ℝ
  maxVoltage : ℝ
  maxContinuousCurrent : ℝ
  totalCapacityMah : ℝ
  motorMinCells : ℝ
  motorMaxCells : ℝ
  escMinCells : ℝ
  escMaxCells : ℝ
  batteryCells : ℝ
  ct : ℝ
  cp : ℝ
  validations : Validations
  allValid : Prop
  maxBurstCurrent : ℝ
  maxPropDiameterMm : ℝ
  propDiameterMm : ℝ

def runFullSimulation (c : Config) : SimulationResult where
  airDensity := rho c
  totalWeightKg := totalWeightKg c
  totalWeightG := totalWeightG c
  hoverThrottle := hoverThrottle c
  hoverRPM := hoverRPM c
  hoverCurrentPerMotor := hoverCurrentPerMotor c
  hoverTotalCurrent := hoverTotalCurrent c
  hoverTotalPower := hoverTotalPower c
  hoverEfficiency := hoverEfficiency c
  hoverThrustPerMotor := hoverThrustPerMotor c / GRAVITY * 1000
  hoverBatteryVoltage := (hoverBattery c).voltage
  hoverBatterySag := (hoverBattery c).sagVolts
  flightTimeMin := flightTime c
  maxThrustPerMotorG := maxThrustPerMotor c / GRAVITY * 1000
  maxTotalThrustG := maxTotalThrustG c
  maxRPM := maxRPM c
  maxCurrentPerMotor := maxCurrentPerMotor c
  maxTotalCurrentDraw := maxTotalCurrentDraw c
  maxBatteryVoltage := (maxBattery c).voltage
  maxBatterySag := (maxBattery c).sagVolts
  twr := twr c
  wireLossPerMotor := (wireLoss c).powerLoss
  totalWireLoss := totalWireLoss c
  escPowerLoss := escPowerLoss c
  copperLossPerMotor := copperLoss c
  motorTemp5min := motorTemp5min c
  motorEfficiency := motorEffCalc c
  nominalVoltage := nominalVoltage c
  maxVoltage := maxVoltage c
  maxContinuousCurrent := maxContinuousCurrent c
  totalCapacityMah := capacityMah c
  motorMinCells := motorMinCells c
  motorMaxCells := motorMaxCells c
  escMinCells := escMinCells c
  escMaxCells := escMaxCells c
  batteryCells := cells c
  ct := ct c
  cp := cp c
  validations := validations c
  allValid := allValid c
  maxBurstCurrent := maxBurstCurrent c
  maxPropDiameterMm := maxPropDiameterMm c
  propDiameterMm := propDiameterMm c

/-- A configuration identical to the all-defaults quad except for a 100 kg
payload — far beyond what the default drivetrain can lift at full throttle. -/
def cfgHeavy : Config := { frame := { payloadWeight := some 100000 } }

/-! ### Helper lemmas -/

theorem CHEMISTRY_min_le_nominal (name : String) :
    (CHEMISTRY name).min ≤ (CHEMISTRY name).nominal := by
  unfold CHEMISTRY
  split_ifs <;> norm_num

theorem calcHoverThrottle_nonneg (w n t k : ℝ) : 0 ≤ calcHoverThrottle w n t k := by
  simp only [calcHoverThrottle]
  split_ifs
  · norm_num
  · exact le_min (by norm_num) (le_max_left _ _)

theorem calcHoverThrottle_le_100 (w n t k : ℝ) : calcHoverThrottle w n t k ≤ 100 := by
  simp only [calcHoverThrottle]
  split_ifs
  · exact le_refl _
  · exact min_le_left _ _

theorem rho_of_default_env (c : Config) (h : c.environment = {}) :
    rho c = 101325 / (287.058 * 298.15) := by
  simp only [rho, altitude, tempC, h, orD, Option.getD_none, calcAirDensity,
    SEA_LEVEL_PRESSURE, SEA_LEVEL_TEMP, LAPSE_RATE, AIR_GAS_CONSTANT, GRAVITY,
    MOLAR_MASS_AIR, UNIVERSAL_GAS_CONSTANT]
  norm_num [min_def, max_def, Real.one_rpow]

theorem ct_of_default_prop (c : Config) (h : c.propeller = {}) : ct c = 0.09525 := by
  simp only [ct, propDiameterIn, propPitchIn, propBlades, h, orD, estimatePropCoefficients]
  norm_num [min_def, max_def]

theorem propDiameterM_of_default_prop (c : Config) (h : c.propeller = {}) :
    propDiameterM c = 0.254 := by
  simp only [propDiameterM, propDiameterIn, h, orD]
  norm_num

theorem maxRPS_of_defaults (c : Config) (hm : c.motor = {}) (hb : c.battery = {}) :
    maxRPS c = 15410 / 60 := by
  simp only [maxRPS, maxRPM, calcMotorRPM, kv, maxVoltage, chemData, chem, cells,
    noLoadCurrent, motorResistance, hm, hb, orD, orS, CHEMISTRY]
  norm_num [max_def]

theorem maxThrustPerMotor_of_defaults (c : Config) (he : c.environment = {})
    (hb : c.battery = {}) (hm : c.motor = {}) (hp : c.propeller = {}) :
    maxThrustPerMotor c =
      0.09525 * (101325 / (287.058 * 298.15)) * (15410 / 60) * (15410 / 60) *
        0.254 ^ (4 : ℕ) := by
  rw [maxThrustPerMotor, calcThrust, ct_of_default_prop c hp, rho_of_default_env c he,
    maxRPS_of_defaults c hm hb, propDiameterM_of_default_prop c hp]

theorem numMotors_of_none (c : Config) (h : c.frame.motorCount = none) : numMotors c = 4 := by
  simp [numMotors, h, orD]

theorem coaxFactor_of_none (c : Config) (h : c.frame.layout = none) : coaxFactor c = 1 := by
  have hiso : isCoaxial c = false := by simp [isCoaxial, h]
  norm_num [coaxFactor, calcCoaxialFactor, hiso]

theorem totalWeightKg_default : totalWeightKg ({} : Config) = 0.34 := by
  norm_num [totalWeightKg, frameWeight, payloadWeight, batteryWeight, motorWeightG,
    escWeightG, propWeightG, numMotors, orD]

theorem totalWeightKg_cfgHeavy : totalWeightKg cfgHeavy = 100.34 := by
  norm_num [cfgHeavy, totalWeightKg, frameWeight, payloadWeight, batteryWeight, motorWeightG,
    escWeightG, propWeightG, numMotors, orD]

/-- When hover is achievable (positive max thrust, throttle strictly below
the 100 clamp) and the required thrust ratio is nonnegative, the square-root
throttle law makes the hover thrust per motor times the effective motor
count exactly cancel the weight. -/
theorem calcHoverThrottle_balance (ctv rhov rps D W n k : ℝ)
    (hT : 0 < calcThrust ctv rhov rps D) (hn : 0 < n * k) (hw : 0 ≤ W)
    (hlt : calcHoverThrottle W n (calcThrust ctv rhov rps D) k < 100) :
    calcThrust ctv rhov
        (rps * (calcHoverThrottle W n (calcThrust ctv rhov rps D) k / 100)) D * n * k
      = W * GRAVITY := by
  have hG : (0 : ℝ) < GRAVITY := by norm_num [GRAVITY]
  have hr0 : 0 ≤ W * GRAVITY / (n * k) / calcThrust ctv rhov rps D :=
    div_nonneg (div_nonneg (mul_nonneg hw hG.le) hn.le) hT.le
  have h2 : max 0 (Real.sqrt (W * GRAVITY / (n * k) / calcThrust ctv rhov rps D) * 100) =
      Real.sqrt (W * GRAVITY / (n * k) / calcThrust ctv rhov rps D) * 100 :=
    max_eq_right (mul_nonneg (Real.sqrt_nonneg _) (by norm_num))
  have h1 : calcHoverThrottle W n (calcThrust ctv rhov rps D) k =
      min 100 (Real.sqrt (W * GRAVITY / (n * k) / calcThrust ctv rhov rps D) * 100) := by
    simp only [calcHoverThrottle, if_neg (not_le.mpr hT), h2]
  have hs : Real.sqrt (W * GRAVITY / (n * k) / calcThrust ctv rhov rps D) * 100 < 100 := by
    rw [h1] at hlt
    rcases min_lt_iff.mp hlt with h | h
    · exact absurd h (lt_irrefl _)
    · exact h
  have hthr : calcHoverThrottle W n (calcThrust ctv rhov rps D) k =
      Real.sqrt (W * GRAVITY / (n * k) / calcThrust ctv rhov rps D) * 100 := by
    rw [h1, min_eq_right hs.le]
  have hss : Real.sqrt (W * GRAVITY / (n * k) / calcThrust ctv rhov rps D) *
      Real.sqrt (W * GRAVITY / (n * k) / calcThrust ctv rhov rps D) =
      W * GRAVITY / (n * k) / calcThrust ctv rhov rps D := Real.mul_self_sqrt hr0
  have hTne : calcThrust ctv rhov rps D ≠ 0 := ne_of_gt hT
  have hnne : n ≠ 0 := (mul_ne_zero_iff.mp (ne_of_gt hn)).1
  have hkne : k ≠ 0 := (mul_ne_zero_iff.mp (ne_of_gt hn)).2
  rw [hthr]
  have h100 : Real.sqrt (W * GRAVITY / (n * k) / calcThrust ctv rhov rps D) * 100 / 100 =
      Real.sqrt (W * GRAVITY / (n * k) / calcThrust ctv rhov rps D) := by ring
  rw [h100]
  have expand : calcThrust ctv rhov
      (rps * Real.sqrt (W * GRAVITY / (n * k) / calcThrust ctv rhov rps D)) D =
      calcThrust ctv rhov rps D * (W * GRAVITY / (n * k) / calcThrust ctv rhov rps D) := by
    simp only [calcThrust]
    calc ctv * rhov * (rps * Real.sqrt (W * GRAVITY / (n * k) / (ctv * rhov * rps * rps * D ^ (4 : ℕ)))) *
          (rps * Real.sqrt (W * GRAVITY / (n * k) / (ctv * rhov * rps * rps * D ^ (4 : ℕ)))) * D ^ (4 : ℕ)
        = ctv * rhov * rps * rps * D ^ (4 : ℕ) *
            (Real.sqrt (W * GRAVITY / (n * k) / (ctv * rhov * rps * rps * D ^ (4 : ℕ))) *
             Real.sqrt (W * GRAVITY / (n * k) / (ctv * rhov * rps * rps * D ^ (4 : ℕ)))) := by
          ring
      _ = ctv * rhov * rps * rps * D ^ (4 : ℕ) *
            (W * GRAVITY / (n * k) / (ctv * rhov * rps * rps * D ^ (4 : ℕ))) := by
          rw [show Real.sqrt (W * GRAVITY / (n * k) / (ctv * rhov * rps * rps * D ^ (4 : ℕ))) *
              Real.sqrt (W * GRAVITY / (n * k) / (ctv * rhov * rps * rps * D ^ (4 : ℕ))) =
              W * GRAVITY / (n * k) / (ctv * rhov * rps * rps * D ^ (4 : ℕ)) from hss]
  rw [expand]
  field_simp
  ring

/-! ### Claim theorems -/

/-- Claim C2: for every altitude in [0, 11000] m and temperature in
[-20, 50] °C the air density is strictly between 0 and 1.5 (and, being a
real number of the model, finite), and it equals the barometric pressure at
the clamped altitude divided by `287.058 × (tempC + 273.15)` — the
user-supplied temperature, not the lapse-adjusted one; at (0, 15) the value
is within ±0.01 of 1.225. -/
theorem calcAirDensity_spec (altitudeM tC : ℝ)
    (h1 : 0 ≤ altitudeM) (h2 : altitudeM ≤ 11000) (h3 : -20 ≤ tC) (h4 : tC ≤ 50) :
    (0 < calcAirDensity altitudeM tC ∧ calcAirDensity altitudeM tC < 1.5) ∧
    calcAirDensity altitudeM tC =
      SEA_LEVEL_PRESSURE *
          (1 - LAPSE_RATE * altitudeM / SEA_LEVEL_TEMP) ^
            (GRAVITY * MOLAR_MASS_AIR / (UNIVERSAL_GAS_CONSTANT * LAPSE_RATE)) /
        (287.058 * (tC + 273.15)) ∧
    |calcAirDensity 0 15 - 1.225| < 0.01 := by
  have hclamp : max 0 (min altitudeM 11000) = altitudeM := by
    rw [min_eq_left h2, max_eq_right h1]
  have heq : calcAirDensity altitudeM tC =
      SEA_LEVEL_PRESSURE *
          (1 - LAPSE_RATE * altitudeM / SEA_LEVEL_TEMP) ^
            (GRAVITY * MOLAR_MASS_AIR / (UNIVERSAL_GAS_CONSTANT * LAPSE_RATE)) /
        (287.058 * (tC + 273.15)) := by
    simp only [calcAirDensity, hclamp, AIR_GAS_CONSTANT]
  have hbase_pos : 0 < 1 - LAPSE_RATE * altitudeM / SEA_LEVEL_TEMP := by
    simp only [LAPSE_RATE, SEA_LEVEL_TEMP]
    have hmono : (0.0065 : ℝ) * altitudeM / 288.15 ≤ 0.0065 * 11000 / 288.15 := by
      gcongr
    have hsmall : (0.0065 : ℝ) * 11000 / 288.15 < 1 := by norm_num
    linarith
  have hbase_le : 1 - LAPSE_RATE * altitudeM / SEA_LEVEL_TEMP ≤ 1 := by
    simp only [LAPSE_RATE, SEA_LEVEL_TEMP]
    have : 0 ≤ 0.0065 * altitudeM / 288.15 := by positivity
    linarith
  have hexp_nonneg : 0 ≤ GRAVITY * MOLAR_MASS_AIR / (UNIVERSAL_GAS_CONSTANT * LAPSE_RATE) := by
    simp only [GRAVITY, MOLAR_MASS_AIR, UNIVERSAL_GAS_CONSTANT, LAPSE_RATE]
    positivity
  have hpow_pos : 0 < (1 - LAPSE_RATE * altitudeM / SEA_LEVEL_TEMP) ^
      (GRAVITY * MOLAR_MASS_AIR / (UNIVERSAL_GAS_CONSTANT * LAPSE_RATE)) :=
    Real.rpow_pos_of_pos hbase_pos _
  have hpow_le : (1 - LAPSE_RATE * altitudeM / SEA_LEVEL_TEMP) ^
      (GRAVITY * MOLAR_MASS_AIR / (UNIVERSAL_GAS_CONSTANT * LAPSE_RATE)) ≤ 1 :=
    Real.rpow_le_one hbase_pos.le hbase_le hexp_nonneg
  have hden_pos : (0 : ℝ) < 287.058 * (tC + 273.15) := by nlinarith
  have hval : calcAirDensity 0 15 = 101325 / (287.058 * 288.15) := by
    have hz : max 0 (min (0 : ℝ) 11000) = 0 := by norm_num
    simp only [calcAirDensity, hz, SEA_LEVEL_PRESSURE, SEA_LEVEL_TEMP, LAPSE_RATE,
      AIR_GAS_CONSTANT, GRAVITY, MOLAR_MASS_AIR, UNIVERSAL_GAS_CONSTANT]
    norm_num [Real.one_rpow]
  refine ⟨⟨?_, ?_⟩, heq, ?_⟩
  · rw [heq]
    refine div_pos (mul_pos ?_ hpow_pos) hden_pos
    norm_num [SEA_LEVEL_PRESSURE]
  · rw [heq, div_lt_iff₀ hden_pos]
    simp only [SEA_LEVEL_PRESSURE]
    nlinarith [hpow_le, hpow_pos]
  · rw [hval, abs_lt]
    constructor <;> norm_num

/-- Witness for claim C2 at sea level and 15 °C. -/
theorem calcAirDensity_spec_witness :
    (0 : ℝ) ≤ 0 ∧ (0 : ℝ) ≤ 11000 ∧ (-20 : ℝ) ≤ 15 ∧ (15 : ℝ) ≤ 50 ∧
    (0 < calcAirDensity 0 15 ∧ calcAirDensity 0 15 < 1.5) ∧
    |calcAirDensity 0 15 - 1.225| < 0.01 :=
  ⟨le_refl 0, by norm_num, by norm_num, by norm_num,
   (calcAirDensity_spec 0 15 (le_refl 0) (by norm_num) (by norm_num) (by norm_num)).1,
   (calcAirDensity_spec 0 15 (le_refl 0) (by norm_num) (by norm_num) (by norm_num)).2.2⟩

/-- Claim C3: for every cell count (nonnegative, as a count), chemistry,
current, capacity, C-rating and per-cell internal resistance,
`calcBatteryVoltageUnderLoad` returns
`sagVolts = currentA × (internalResistanceMohm/1000) × cells` and
`voltage = max (chem.min × cells) (chem.nominal × cells − sagVolts)`;
the voltage is never below `chem.min × cells`, and at zero current the sag
is 0 and the voltage is exactly `chem.nominal × cells`. -/
theorem calcBatteryVoltageUnderLoad_spec (cellsS : ℝ) (chemistry : String)
    (currentA capMah cRat internalMohm : ℝ) (hc : 0 ≤ cellsS) :
    (calcBatteryVoltageUnderLoad cellsS chemistry currentA capMah cRat internalMohm).sagVolts
      = currentA * (internalMohm / 1000) * cellsS ∧
    (calcBatteryVoltageUnderLoad cellsS chemistry currentA capMah cRat internalMohm).voltage
      = max ((CHEMISTRY chemistry).min * cellsS)
          ((CHEMISTRY chemistry).nominal * cellsS -
            (calcBatteryVoltageUnderLoad cellsS chemistry currentA capMah cRat internalMohm).sagVolts) ∧
    (CHEMISTRY chemistry).min * cellsS ≤
      (calcBatteryVoltageUnderLoad cellsS chemistry currentA capMah cRat internalMohm).voltage ∧
    (calcBatteryVoltageUnderLoad cellsS chemistry 0 capMah cRat internalMohm).sagVolts = 0 ∧
    (calcBatteryVoltageUnderLoad cellsS chemistry 0 capMah cRat internalMohm).voltage
      = (CHEMISTRY chemistry).nominal * cellsS := by
  refine ⟨?_, ?_, ?_, ?_, ?_⟩
  · simp only [calcBatteryVoltageUnderLoad]
    ring
  · simp only [calcBatteryVoltageUnderLoad]
  · simp only [calcBatteryVoltageUnderLoad]
    exact le_max_left _ _
  · simp only [calcBatteryVoltageUnderLoad]
    ring
  · simp only [calcBatteryVoltageUnderLoad]
    rw [zero_mul, sub_zero]
    exact max_eq_right (mul_le_mul_of_nonneg_right (CHEMISTRY_min_le_nominal chemistry) hc)

/-- Witness for claim C3 at the default 4S LiPo pack. -/
theorem calcBatteryVoltageUnderLoad_spec_witness :
    (0 : ℝ) ≤ 4 ∧
    ((calcBatteryVoltageUnderLoad 4 "LiPo" 0 5000 20 5).sagVolts = 0 ∧
     (calcBatteryVoltageUnderLoad 4 "LiPo" 0 5000 20 5).voltage = (CHEMISTRY "LiPo").nominal * 4) :=
  ⟨by norm_num,
   (calcBatteryVoltageUnderLoad_spec 4 "LiPo" 12 5000 20 5 (by norm_num)).2.2.2.1,
   (calcBatteryVoltageUnderLoad_spec 4 "LiPo" 12 5000 20 5 (by norm_num)).2.2.2.2⟩

/-- Claim C4: `calcHoverThrottle` returns 100 whenever the max thrust per
motor is nonpositive, and otherwise returns
`100 × √((totalWeightKg × 9.80665 / (numMotors × coaxialFactor)) / maxThrustPerMotorN)`
clamped to `[0, 100]`; in all cases the result lies in `[0, 100]`. -/
theorem calcHoverThrottle_spec (totalWeightKg numMotors maxThrustPerMotorN coaxialFactor : ℝ) :
    (maxThrustPerMotorN ≤ 0 →
      calcHoverThrottle totalWeightKg numMotors maxThrustPerMotorN coaxialFactor = 100) ∧
    (0 < maxThrustPerMotorN →
      calcHoverThrottle totalWeightKg numMotors maxThrustPerMotorN coaxialFactor =
        min 100 (max 0 (100 *
          Real.sqrt (totalWeightKg * 9.80665 / (numMotors * coaxialFactor) / maxThrustPerMotorN)))) ∧
    0 ≤ calcHoverThrottle totalWeightKg numMotors maxThrustPerMotorN coaxialFactor ∧
    calcHoverThrottle totalWeightKg numMotors maxThrustPerMotorN coaxialFactor ≤ 100 := by
  refine ⟨fun h => ?_, fun h => ?_, calcHoverThrottle_nonneg _ _ _ _,
    calcHoverThrottle_le_100 _ _ _ _⟩
  · simp only [calcHoverThrottle, if_pos h]
  · simp only [calcHoverThrottle, if_neg (not_le.mpr h), GRAVITY, mul_comm]

/-- Witness for claim C4: the zero-thrust guard at (1, 4, 0, 1) and the
square-root branch at (1, 4, 2, 1). -/
theorem calcHoverThrottle_spec_witness :
    calcHoverThrottle 1 4 0 1 = 100 ∧
    calcHoverThrottle 1 4 2 1 =
      min 100 (max 0 (100 * Real.sqrt (1 * 9.80665 / (4 * 1) / 2))) :=
  ⟨(calcHoverThrottle_spec 1 4 0 1).1 (by norm_num),
   (calcHoverThrottle_spec 1 4 2 1).2.1 (by norm_num)⟩

/-- Claim C6: `calcFlightTime` returns Infinity (the top element) for every
nonpositive current, returns
`(capacityMah × dischargePercent) / (totalCurrentA × 1000) × 60` minutes for
positive current, and at (5000, 0.8, 20) returns exactly 12 minutes (which
is within the claimed ±1 of 12). -/
theorem calcFlightTime_spec (capMah dischargePercent totalCurrentA : ℝ) :
    (totalCurrentA ≤ 0 → calcFlightTime capMah dischargePercent totalCurrentA = ⊤) ∧
    (0 < totalCurrentA → calcFlightTime capMah dischargePercent totalCurrentA =
      (((capMah * dischargePercent) / (totalCurrentA * 1000) * 60 : ℝ) : WithTop ℝ)) ∧
    calcFlightTime 5000 0.8 20 = ((12 : ℝ) : WithTop ℝ) := by
  refine ⟨fun h => ?_, fun h => ?_, ?_⟩
  · simp only [calcFlightTime, if_pos h]
  · simp only [calcFlightTime, if_neg (not_le.mpr h)]
  · rw [calcFlightTime, if_neg (by norm_num : ¬ (20 : ℝ) ≤ 0)]
    norm_num

/-- Witness for claim C6 at zero current and at the documented example. -/
theorem calcFlightTime_spec_witness :
    calcFlightTime 5000 0.8 0 = ⊤ ∧
    calcFlightTime 5000 0.8 20 = (((5000 * 0.8) / (20 * 1000) * 60 : ℝ) : WithTop ℝ) :=
  ⟨(calcFlightTime_spec 5000 0.8 0).1 (by norm_num),
   (calcFlightTime_spec 5000 0.8 20).2.1 (by norm_num)⟩

/-- Claim C7: in the real-valued embedding every engine function is total by
construction, and each potential division by zero in the source is guarded
by an explicit sentinel: `calcMotorEfficiency` returns 0 when the electrical
power is nonpositive, `calcFlightTime` returns Infinity when the current is
nonpositive, and `calcThrustToWeightRatio` and `calcSystemEfficiency`
return 0 when their denominators are nonpositive. -/
theorem engine_div_guards (mechPower elecPower totalThrustN weightKg thrustN powerW
    capMah dischargePercent totalCurrentA : ℝ) :
    (elecPower ≤ 0 → calcMotorEfficiency mechPower elecPower = 0) ∧
    (totalCurrentA ≤ 0 → calcFlightTime capMah dischargePercent totalCurrentA = ⊤) ∧
    (weightKg ≤ 0 → calcThrustToWeightRatio totalThrustN weightKg = 0) ∧
    (powerW ≤ 0 → calcSystemEfficiency thrustN powerW = 0) := by
  refine ⟨fun h => ?_, fun h => ?_, fun h => ?_, fun h => ?_⟩
  · simp only [calcMotorEfficiency, if_pos h]
  · simp only [calcFlightTime, if_pos h]
  · simp only [calcThrustToWeightRatio, if_pos h]
  · simp only [calcSystemEfficiency, if_pos h]

/-- Witness for claim C7: all four sentinels fire at zero denominators. -/
theorem engine_div_guards_witness :
    calcMotorEfficiency 5 0 = 0 ∧ calcFlightTime 5000 0.8 0 = ⊤ ∧
    calcThrustToWeightRatio 40 0 = 0 ∧ calcSystemEfficiency 10 0 = 0 :=
  ⟨(engine_div_guards 5 0 40 0 10 0 5000 0.8 0).1 (le_refl 0),
   (engine_div_guards 5 0 40 0 10 0 5000 0.8 0).2.1 (le_refl 0),
   (engine_div_guards 5 0 40 0 10 0 5000 0.8 0).2.2.1 (le_refl 0),
   (engine_div_guards 5 0 40 0 10 0 5000 0.8 0).2.2.2 (le_refl 0)⟩

theorem hoverThrottle_default_lt_100 : hoverThrottle ({} : Config) < 100 := by
  have hT := maxThrustPerMotor_of_defaults ({} : Config) rfl rfl rfl rfl
  have hTpos : 0 < maxThrustPerMotor ({} : Config) := by
    rw [hT]
    positivity
  simp only [hoverThrottle, calcHoverThrottle]
  rw [if_neg (not_le.mpr hTpos), totalWeightKg_default, numMotors_of_none _ rfl,
    coaxFactor_of_none _ rfl, hT]
  simp only [GRAVITY]
  have hrlt : (0.34 : ℝ) * 9.80665 / (4 * 1) /
      (0.09525 * (101325 / (287.058 * 298.15)) * (15410 / 60) * (15410 / 60) *
        0.254 ^ (4 : ℕ)) < 1 ^ 2 := by norm_num
  have hs := (Real.sqrt_lt' one_pos).mpr hrlt
  refine lt_of_le_of_lt (min_le_right _ _) (max_lt (by norm_num) ?_)
  nlinarith [hs]

theorem hoverThrottle_cfgHeavy_eq_100 : hoverThrottle cfgHeavy = 100 := by
  have hT := maxThrustPerMotor_of_defaults cfgHeavy rfl rfl rfl rfl
  have hTpos : 0 < maxThrustPerMotor cfgHeavy := by
    rw [hT]
    positivity
  simp only [hoverThrottle, calcHoverThrottle]
  rw [if_neg (not_le.mpr hTpos), totalWeightKg_cfgHeavy, numMotors_of_none cfgHeavy rfl,
    coaxFactor_of_none cfgHeavy rfl, hT]
  simp only [GRAVITY]
  have hrge : (1 : ℝ) ^ 2 ≤ 100.34 * 9.80665 / (4 * 1) /
      (0.09525 * (101325 / (287.058 * 298.15)) * (15410 / 60) * (15410 / 60) *
        0.254 ^ (4 : ℕ)) := by norm_num
  have hs := (Real.le_sqrt' one_pos).mpr hrge
  have h100 : (100 : ℝ) ≤ Real.sqrt (100.34 * 9.80665 / (4 * 1) /
      (0.09525 * (101325 / (287.058 * 298.15)) * (15410 / 60) * (15410 / 60) *
        0.254 ^ (4 : ℕ))) * 100 := by nlinarith [hs]
  rw [max_eq_right (mul_nonneg (Real.sqrt_nonneg _) (by norm_num)), min_eq_left h100]

theorem hoverThrustPerMotor_cfgHeavy_eval :
    hoverThrustPerMotor cfgHeavy =
      0.09525 * (101325 / (287.058 * 298.15)) * (15410 / 60) * (15410 / 60) *
        0.254 ^ (4 : ℕ) := by
  rw [hoverThrustPerMotor, calcThrust, ct_of_default_prop cfgHeavy rfl,
    rho_of_default_env cfgHeavy rfl, propDiameterM_of_default_prop cfgHeavy rfl, hoverRPS,
    hoverThrottle_cfgHeavy_eq_100, maxRPS_of_defaults cfgHeavy rfl rfl]
  norm_num

/-- Claim C1: the validations record of `runFullSimulation` consists of
exactly the ten tabulated boolean checks — strict `<` for motorCurrentOk,
escCurrentOk, batteryDischargeOk, batteryBurstOk, motorTempOk and
hoverThrottleOk, non-strict `≤` for propSizeOk, `≥ 2.0` for twrOk and
inclusive cell-range membership for escVoltageOk and motorVoltageOk — and
`allValid` holds if and only if all ten checks hold. -/
theorem runFullSimulation_validations_spec (c : Config) :
    (runFullSimulation c).validations = validations c ∧
    ((validations c).motorCurrentOk ↔ hoverCurrentPerMotor c < maxMotorCurrent c) ∧
    ((validations c).escCurrentOk ↔ hoverCurrentPerMotor c < escMaxCurrent c) ∧
    ((validations c).batteryDischargeOk ↔ hoverTotalCurrent c < maxContinuousCurrent c) ∧
    ((validations c).batteryBurstOk ↔ maxTotalCurrentDraw c < maxBurstCurrent c) ∧
    ((validations c).propSizeOk ↔ propDiameterMm c ≤ maxPropDiameterMm c) ∧
    ((validations c).twrOk ↔ twr c ≥ 2.0) ∧
    ((validations c).motorTempOk ↔ motorTemp5min c < 80) ∧
    ((validations c).hoverThrottleOk ↔ hoverThrottle c < 60) ∧
    ((validations c).escVoltageOk ↔ (escMinCells c ≤ cells c ∧ cells c ≤ escMaxCells c)) ∧
    ((validations c).motorVoltageOk ↔ (motorMinCells c ≤ cells c ∧ cells c ≤ motorMaxCells c)) ∧
    ((runFullSimulation c).allValid ↔
      (hoverCurrentPerMotor c < maxMotorCurrent c ∧
       hoverCurrentPerMotor c < escMaxCurrent c ∧
       hoverTotalCurrent c < maxContinuousCurrent c ∧
       maxTotalCurrentDraw c < maxBurstCurrent c ∧
       propDiameterMm c ≤ maxPropDiameterMm c ∧
       twr c ≥ 2.0 ∧
       motorTemp5min c < 80 ∧
       hoverThrottle c < 60 ∧
       (escMinCells c ≤ cells c ∧ cells c ≤ escMaxCells c) ∧
       (motorMinCells c ≤ cells c ∧ cells c ≤ motorMaxCells c))) := by
  refine ⟨rfl, Iff.rfl, Iff.rfl, Iff.rfl, Iff.rfl, Iff.rfl, Iff.rfl, Iff.rfl, Iff.rfl,
    Iff.rfl, Iff.rfl, ?_⟩
  show allValid c ↔ _
  simp only [allValid, Validations.values, validations, List.mem_cons, List.not_mem_nil,
    forall_eq_or_imp, forall_eq, ge_iff_le]
  tauto

/-- Claim C5 counterexample: at diameter 1, pitch 4 the pitch ratio is so
large that both the two- and three-blade coefficients hit the upper clamps
(ct = 0.22, cp = 0.12), so the three-blade values are not strictly greater. -/
theorem estimatePropCoefficients_blades_counterexample :
    (0 : ℝ) < 1 ∧
    ¬ ((estimatePropCoefficients 1 4 2).ct < (estimatePropCoefficients 1 4 3).ct ∧
       (estimatePropCoefficients 1 4 2).cp < (estimatePropCoefficients 1 4 3).cp) := by
  refine ⟨by norm_num, ?_⟩
  have h2 : estimatePropCoefficients 1 4 2 = ⟨0.22, 0.12⟩ := by
    simp only [estimatePropCoefficients]
    norm_num [min_def, max_def]
  have h3 : estimatePropCoefficients 1 4 3 = ⟨0.22, 0.12⟩ := by
    simp only [estimatePropCoefficients]
    norm_num [min_def, max_def]
  rw [h2, h3]
  simp

/-- Claim C5 (amended): the three-blade ct and cp are strictly greater than
the two-blade ones for identical geometry whenever the pitch is nonnegative
and the pitch ratio is small enough that the two-blade cp stays below its
0.12 upper clamp (pitch/diameter < 19/7, which covers all hobby props). -/
theorem estimatePropCoefficients_blades_mono (diameterIn pitchIn : ℝ)
    (hd : 0 < diameterIn) (hp : 0 ≤ pitchIn)
    (hcap : 0.025 + 0.035 * (pitchIn / diameterIn) < 0.12) :
    (estimatePropCoefficients diameterIn pitchIn 2).ct <
      (estimatePropCoefficients diameterIn pitchIn 3).ct ∧
    (estimatePropCoefficients diameterIn pitchIn 2).cp <
      (estimatePropCoefficients diameterIn pitchIn 3).cp := by
  have hr : 0 ≤ pitchIn / diameterIn := div_nonneg hp hd.le
  simp only [estimatePropCoefficients]
  norm_num
  exact ⟨⟨by nlinarith, by nlinarith, Or.inr (by nlinarith)⟩,
         ⟨by nlinarith, by nlinarith, Or.inr (by nlinarith)⟩⟩

/-- Witness for the amended claim C5 at the default 10×4.5 propeller. -/
theorem estimatePropCoefficients_blades_mono_witness :
    (0 : ℝ) < 10 ∧ (0 : ℝ) ≤ 4.5 ∧ (0.025 : ℝ) + 0.035 * (4.5 / 10) < 0.12 ∧
    ((estimatePropCoefficients 10 4.5 2).ct < (estimatePropCoefficients 10 4.5 3).ct ∧
     (estimatePropCoefficients 10 4.5 2).cp < (estimatePropCoefficients 10 4.5 3).cp) :=
  ⟨by norm_num, by norm_num, by norm_num,
   estimatePropCoefficients_blades_mono 10 4.5 (by norm_num) (by norm_num) (by norm_num)⟩

/-- Claim C8: `runFullSimulation` is deterministic and stateless — in the
embedding it is a pure function of the configuration value, so any two
invocations on equal (deep-equal) configurations produce equal results, and
no state is read or written. -/
theorem runFullSimulation_deterministic (c1 c2 : Config) (h : c1 = c2) :
    runFullSimulation c1 = runFullSimulation c2 := by rw [h]

/-- Witness for claim C8 at the empty (all-defaults) configuration. -/
theorem runFullSimulation_deterministic_witness :
    runFullSimulation {} = runFullSimulation {} :=
  runFullSimulation_deterministic {} {} rfl

/-- Claim C9: every numeric configuration field is resolved with a
truthiness test (`field || default`), so a field explicitly supplied as 0
is treated exactly like an absent field and replaced by the documented
default — in particular motorCount 0 becomes 4, dischargeDepth 0 becomes
80 %, cRating 0 becomes 20, and ct or cp supplied as 0 fall back to the
geometry estimate — while `environment.temperature` alone uses the nullish
test `??`, so a supplied temperature of 0 °C is respected (and an absent
one defaults to 25 °C). -/
theorem zero_field_treated_as_absent (c : Config) :
    altitude { c with environment := { c.environment with altitude := some 0 } } =
      altitude { c with environment := { c.environment with altitude := none } } ∧
    tempC { c with environment := { c.environment with temperature := some 0 } } = 0 ∧
    tempC { c with environment := { c.environment with temperature := none } } = 25 ∧
    numMotors { c with frame := { c.frame with motorCount := some 0 } } = 4 ∧
    numMotors { c with frame := { c.frame with motorCount := none } } = 4 ∧
    frameWeight { c with frame := { c.frame with frameWeight := some 0 } } =
      frameWeight { c with frame := { c.frame with frameWeight := none } } ∧
    payloadWeight { c with frame := { c.frame with payloadWeight := some 0 } } =
      payloadWeight { c with frame := { c.frame with payloadWeight := none } } ∧
    payloadCurrent { c with frame := { c.frame with payloadCurrent := some 0 } } =
      payloadCurrent { c with frame := { c.frame with payloadCurrent := none } } ∧
    wheelbaseMm { c with frame := { c.frame with wheelbaseMm := some 0 } } =
      wheelbaseMm { c with frame := { c.frame with wheelbaseMm := none } } ∧
    cells { c with battery := { c.battery with cellsS := some 0 } } =
      cells { c with battery := { c.battery with cellsS := none } } ∧
    parallel { c with battery := { c.battery with cellsP := some 0 } } =
      parallel { c with battery := { c.battery with cellsP := none } } ∧
    capacityMah { c with battery := { c.battery with capacityMah := some 0 } } =
      capacityMah { c with battery := { c.battery with capacityMah := none } } ∧
    cRating { c with battery := { c.battery with cRating := some 0 } } = 20 ∧
    cRating { c with battery := { c.battery with cRating := none } } = 20 ∧
    burstC { c with battery := { c.battery with burstC := some 0 } } =
      burstC { c with battery := { c.battery with burstC := none } } ∧
    internalR { c with battery := { c.battery with internalResistanceMohm := some 0 } } =
      internalR { c with battery := { c.battery with internalResistanceMohm := none } } ∧
    batteryWeight { c with battery := { c.battery with weightG := some 0 } } =
      batteryWeight { c with battery := { c.battery with weightG := none } } ∧
    dischargeDepth { c with battery := { c.battery with dischargeDepth := some 0 } } = 80 / 100 ∧
    dischargeDepth { c with battery := { c.battery with dischargeDepth := none } } = 80 / 100 ∧
    kv { c with motor := { c.motor with kv := some 0 } } =
      kv { c with motor := { c.motor with kv := none } } ∧
    motorResistance { c with motor := { c.motor with resistance := some 0 } } =
      motorResistance { c with motor := { c.motor with resistance := none } } ∧
    noLoadCurrent { c with motor := { c.motor with noLoadCurrent := some 0 } } =
      noLoadCurrent { c with motor := { c.motor with noLoadCurrent := none } } ∧
    maxMotorCurrent { c with motor := { c.motor with maxCurrent := some 0 } } =
      maxMotorCurrent { c with motor := { c.motor with maxCurrent := none } } ∧
    maxMotorPower { c with motor := { c.motor with maxPower := some 0 } } =
      maxMotorPower { c with motor := { c.motor with maxPower := none } } ∧
    motorWeightG { c with motor := { c.motor with weightG := some 0 } } =
      motorWeightG { c with motor := { c.motor with weightG := none } } ∧
    thermalResistance { c with motor := { c.motor with thermalResistance := some 0 } } =
      thermalResistance { c with motor := { c.motor with thermalResistance := none } } ∧
    motorMinCells { c with motor := { c.motor with minCells := some 0 } } =
      motorMinCells { c with motor := { c.motor with minCells := none } } ∧
    motorMaxCells { c with motor := { c.motor with maxCells := some 0 } } =
      motorMaxCells { c with motor := { c.motor with maxCells := none } } ∧
    escMaxCurrent { c with esc := { c.esc with continuousA := some 0 } } =
      escMaxCurrent { c with esc := { c.esc with continuousA := none } } ∧
    escResistance { c with esc := { c.esc with resistanceMohm := some 0 } } =
      escResistance { c with esc := { c.esc with resistanceMohm := none } } ∧
    escWeightG { c with esc := { c.esc with weightG := some 0 } } =
      escWeightG { c with esc := { c.esc with weightG := none } } ∧
    wireAWG { c with esc := { c.esc with wireAwg := some 0 } } =
      wireAWG { c with esc := { c.esc with wireAwg := none } } ∧
    wireLengthCm { c with esc := { c.esc with wireLengthCm := some 0 } } =
      wireLengthCm { c with esc := { c.esc with wireLengthCm := none } } ∧
    escMinCells { c with esc := { c.esc with minCells := some 0 } } =
      escMinCells { c with esc := { c.esc with minCells := none } } ∧
    escMaxCells { c with esc := { c.esc with maxCells := some 0 } } =
      escMaxCells { c with esc := { c.esc with maxCells := none } } ∧
    propDiameterIn { c with propeller := { c.propeller with diameterIn := some 0 } } =
      propDiameterIn { c with propeller := { c.propeller with diameterIn := none } } ∧
    propPitchIn { c with propeller := { c.propeller with pitchIn := some 0 } } =
      propPitchIn { c with propeller := { c.propeller with pitchIn := none } } ∧
    propBlades { c with propeller := { c.propeller with blades := some 0 } } =
      propBlades { c with propeller := { c.propeller with blades := none } } ∧
    propWeightG { c with propeller := { c.propeller with weightG := some 0 } } =
      propWeightG { c with propeller := { c.propeller with weightG := none } } ∧
    ct { c with propeller := { c.propeller with ct := some 0 } } =
      (estimatePropCoefficients (propDiameterIn c) (propPitchIn c) (propBlades c)).ct ∧
    ct { c with propeller := { c.propeller with ct := none } } =
      (estimatePropCoefficients (propDiameterIn c) (propPitchIn c) (propBlades c)).ct ∧
    cp { c with propeller := { c.propeller with cp := some 0 } } =
      (estimatePropCoefficients (propDiameterIn c) (propPitchIn c) (propBlades c)).cp ∧
    cp { c with propeller := { c.propeller with cp := none } } =
      (estimatePropCoefficients (propDiameterIn c) (propPitchIn c) (propBlades c)).cp := by
  simp [altitude, tempC, numMotors, frameWeight, payloadWeight, payloadCurrent, wheelbaseMm,
    cells, parallel, capacityMah, cRating, burstC, internalR, batteryWeight, dischargeDepth,
    kv, motorResistance, noLoadCurrent, maxMotorCurrent, maxMotorPower, motorWeightG,
    thermalResistance, motorMinCells, motorMaxCells, escMaxCurrent, escResistance, escWeightG,
    wireAWG, wireLengthCm, escMinCells, escMaxCells, propDiameterIn, propPitchIn, propBlades,
    propWeightG, ct, cp, orD]

/-- Claim C10 counterexample: with a 100 kg payload on the default quad the
computed max thrust per motor is strictly positive and the hover throttle is
(at) 100 — satisfying the claim's hypotheses — yet the hover operating point
does not balance the weight: the throttle is clamped at 100, so the motors
produce only their maximum thrust, far below what the weight requires. -/
theorem hover_balance_counterexample :
    0 < maxThrustPerMotor cfgHeavy ∧
    hoverThrottle cfgHeavy ≤ 100 ∧
    hoverThrustPerMotor cfgHeavy * numMotors cfgHeavy * coaxFactor cfgHeavy ≠
      totalWeightKg cfgHeavy * 9.80665 := by
  refine ⟨?_, ?_, ?_⟩
  · rw [maxThrustPerMotor_of_defaults cfgHeavy rfl rfl rfl rfl]
    positivity
  · rw [hoverThrottle]
    exact calcHoverThrottle_le_100 _ _ _ _
  · rw [hoverThrustPerMotor_cfgHeavy_eval, numMotors_of_none cfgHeavy rfl,
      coaxFactor_of_none cfgHeavy rfl, totalWeightKg_cfgHeavy]
    norm_num

/-- Claim C10 (amended): for every configuration in which the computed max
thrust per motor is strictly positive, the effective motor count
(motorCount × coaxialFactor) is strictly positive, the total weight is
nonnegative, and the computed hover throttle is strictly below 100 (so the
clamp is inactive and hover is genuinely achievable), the hover operating
point exactly balances weight:
`hoverThrustPerMotor × motorCount × coaxialFactor = totalWeightKg × 9.80665`. -/
theorem hover_thrust_balances_weight (c : Config)
    (hT : 0 < maxThrustPerMotor c) (hn : 0 < numMotors c * coaxFactor c)
    (hw : 0 ≤ totalWeightKg c) (hlt : hoverThrottle c < 100) :
    hoverThrustPerMotor c * numMotors c * coaxFactor c = totalWeightKg c * 9.80665 := by
  have hT' : 0 < calcThrust (ct c) (rho c) (maxRPS c) (propDiameterM c) := hT
  have hlt' : calcHoverThrottle (totalWeightKg c) (numMotors c)
      (calcThrust (ct c) (rho c) (maxRPS c) (propDiameterM c)) (coaxFactor c) < 100 := hlt
  have h := calcHoverThrottle_balance (ct c) (rho c) (maxRPS c) (propDiameterM c)
    (totalWeightKg c) (numMotors c) (coaxFactor c) hT' hn hw hlt'
  simpa only [hoverThrustPerMotor, hoverRPS, hoverThrottle, maxThrustPerMotor, GRAVITY] using h

/-- Witness for the amended claim C10 at the all-defaults configuration,
whose hover throttle is well below 100. -/
theorem hover_thrust_balances_weight_witness :
    0 < maxThrustPerMotor ({} : Config) ∧
    0 < numMotors ({} : Config) * coaxFactor ({} : Config) ∧
    0 ≤ totalWeightKg ({} : Config) ∧
    hoverThrottle ({} : Config) < 100 ∧
    hoverThrustPerMotor ({} : Config) * numMotors ({} : Config) * coaxFactor ({} : Config) =
      totalWeightKg ({} : Config) * 9.80665 := by
  have h1 : 0 < maxThrustPerMotor ({} : Config) := by
    rw [maxThrustPerMotor_of_defaults ({} : Config) rfl rfl rfl rfl]
    positivity
  have h2 : 0 < numMotors ({} : Config) * coaxFactor ({} : Config) := by
    rw [numMotors_of_none _ rfl, coaxFactor_of_none _ rfl]
    norm_num
  have h3 : 0 ≤ totalWeightKg ({} : Config) := by
    rw [totalWeightKg_default]
    norm_num
  have h4 : hoverThrottle ({} : Config) < 100 := hoverThrottle_default_lt_100
  exact ⟨h1, h2, h3, h4, hover_thrust_balances_weight {} h1 h2 h3 h4⟩

end

end DroneCalc
